import Mathlib

/-!
Verification of prompt-sudo-discord (`main.go`) against its specification.

The program posts an approval request to a Discord channel, waits for an
authorized approver to click an approve/deny button, races that wait against
a timeout and an interrupt signal, and terminates with an exit code
determined by the decision.  The definitions below are a shallow embedding
of the relevant Go functions and of the straight-line structure of `main`.
-/

namespace PromptSudo

/-- `defaultTimeout` constant from main.go line 23. -/
def defaultTimeout : Int := 300

/-- Button custom ID for the approve button (main.go line 27). -/
def buttonApproveID : String := "psd_approve"

/-- Button custom ID for the deny button (main.go line 28). -/
def buttonDenyID : String := "psd_deny"

/-- `Config` struct (main.go lines 31-35). `TimeoutSeconds` is a Go `int`,
modelled as `Int`. -/
structure Config where
  discordToken : String
  approverIDs : List String
  timeoutSeconds : Int
deriving DecidableEq, Repr

/-- `ApprovalResult` enumeration (main.go lines 37-45). -/
inductive ApprovalResult where
  | ApprovalPending
  | ApprovalApproved
  | ApprovalDenied
  | ApprovalTimeout
  | ApprovalError
deriving DecidableEq, Repr

open ApprovalResult

/-- `isApprover` (main.go lines 71-78): linear scan of the approver list,
comparing each entry with the user ID by string equality. -/
def isApprover (userID : String) : List String → Bool
  | [] => false
  | id :: rest => if id = userID then true else isApprover userID rest

/-- An inbound interaction event as seen by the `InteractionCreate` handler
(main.go lines 149-197).  `isMessageComponent` models
`i.Type == discordgo.InteractionMessageComponent`; `messageID` is `none` when
`i.Message == nil`; `memberUserID` is `some u` when `i.Member != nil` with
`i.Member.User.ID == u`; `userID` likewise for `i.User`; `customID` is
`i.MessageComponentData().CustomID`. -/
structure Interaction where
  isMessageComponent : Bool
  messageID : Option String
  memberUserID : Option String
  userID : Option String
  customID : String
deriving DecidableEq, Repr

/-- Actor-identity extraction (main.go lines 160-165): start from `""`,
prefer the guild-member identity, else the user identity. -/
def actorID (i : Interaction) : String :=
  match i.memberUserID with
  | some uid => uid
  | none =>
    match i.userID with
    | some uid => uid
    | none => ""

/-- The non-blocking send on the buffered-capacity-1 channel `resultCh`
(main.go lines 145 and 184-187 / 192-195): `select case resultCh <- r:
default:`.  The channel is modelled as a single slot `Option ApprovalResult`;
a send into a full slot is dropped. -/
def trySend (slot : Option ApprovalResult) (r : ApprovalResult) :
    Option ApprovalResult :=
  match slot with
  | none => some r
  | some x => some x

/-- Visible responses the handler can issue via `InteractionRespond`. -/
inductive Response where
  | ephemeralNotApprover
  | deferredUpdate
deriving DecidableEq, Repr

/-- The `InteractionCreate` handler body (main.go lines 149-197).  Returns
the new channel slot together with the list of responses sent.  The order of
the guards follows the source: interaction type, then target-message
identity, then approver membership, then the button custom ID. -/
def handleInteraction (cfg : Config) (requestMsgID : String)
    (slot : Option ApprovalResult) (i : Interaction) :
    Option ApprovalResult × List Response :=
  if i.isMessageComponent = false then (slot, [])
  else if i.messageID ≠ some requestMsgID then (slot, [])
  else if isApprover (actorID i) cfg.approverIDs = false then
    (slot, [Response.ephemeralNotApprover])
  else if i.customID = buttonApproveID then
    (trySend slot ApprovalApproved, [Response.deferredUpdate])
  else if i.customID = buttonDenyID then
    (trySend slot ApprovalDenied, [Response.deferredUpdate])
  else (slot, [])

/-- Sequential delivery of a list of inbound events to the handler, tracking
the channel slot. -/
def processEvents (cfg : Config) (requestMsgID : String)
    (slot : Option ApprovalResult) : List Interaction → Option ApprovalResult
  | [] => slot
  | i :: rest =>
    processEvents cfg requestMsgID (handleInteraction cfg requestMsgID slot i).1 rest

/-- A qualifying approve event: right interaction type, targets the live
request message, authorized actor, approve button. -/
def qualifyingApprove (cfg : Config) (requestMsgID : String)
    (i : Interaction) : Prop :=
  i.isMessageComponent = true ∧ i.messageID = some requestMsgID ∧
    isApprover (actorID i) cfg.approverIDs = true ∧ i.customID = buttonApproveID

instance (cfg : Config) (requestMsgID : String) (i : Interaction) :
    Decidable (qualifyingApprove cfg requestMsgID i) := by
  unfold qualifyingApprove; infer_instance

/-! ### Configuration loading (main.go lines 47-69) -/

/-- The fields of a successfully JSON-decoded config file, before the
validation performed by `loadConfig`. -/
structure RawConfig where
  discordToken : String
  approverIDs : List String
  timeoutSeconds : Int
deriving DecidableEq, Repr

/-- Outcome of `os.ReadFile` + `json.Unmarshal`: `none` when the file is
missing/unreadable, `some none` when it does not parse, `some (some rc)`
when it decodes to `rc`. -/
abbrev ReadOutcome := Option (Option RawConfig)

/-- `loadConfig` (main.go lines 47-69): fails when the file is unreadable,
unparsable, the token is empty, or the approver list is empty; a
non-positive configured timeout is replaced by `defaultTimeout`. -/
def loadConfig (read : ReadOutcome) : Except String Config :=
  match read with
  | none => Except.error ("failed to read config")
  | some none => Except.error ("failed to parse config")
  | some (some rc) =>
    if rc.discordToken = "" then Except.error ("discord_token is required")
    else if rc.approverIDs.length = 0 then Except.error ("approver_ids is required")
    else
      Except.ok
        { discordToken := rc.discordToken
          approverIDs := rc.approverIDs
          timeoutSeconds :=
            if rc.timeoutSeconds ≤ 0 then defaultTimeout else rc.timeoutSeconds }

/-- Timeout override in `main` (main.go lines 127-130): a positive
`--timeout` flag value replaces the configured timeout. -/
def effectiveTimeout (cfg : Config) (flagTimeout : Int) : Int :=
  if flagTimeout > 0 then flagTimeout else cfg.timeoutSeconds

/-! ### The decision wait and the exit code (main.go lines 280-366) -/

/-- Which arm of the three-way `select` in `main` (lines 286-302) fires
first. -/
inductive WaitEvent where
  | resultArrived (r : ApprovalResult)
  | timerFired
  | interrupted
deriving DecidableEq, Repr

/-- Outcome of attempting to run the approved command: either it started and
finished with an exit code (for the replace-exec path, the code the
replacement process exits with), or it could not be started
(`exec.ExitError` absent / `LookPath` / `syscall.Exec` failure). -/
inductive RunOutcome where
  | completed (code : Nat)
  | startError
deriving DecidableEq, Repr

/-- Outcome of the cosmetic `ChannelMessageEditComplex` status edit.  The
source discards the call's return values (lines 295-300, 307-312), so the
definitions below never inspect this value. -/
inductive EditOutcome where
  | editOk
  | editFailed
deriving DecidableEq, Repr

/-- Exit code of the `ApprovalApproved` branch (main.go lines 317-351): the
child's or replacement's own exit code when it ran, `1` with a diagnostic
when it could not be started. -/
def approvedExitCode (run : RunOutcome) : Nat :=
  match run with
  | RunOutcome.completed code => code
  | RunOutcome.startError => 1

/-- The `switch result` statement (main.go lines 316-366).  `edit` is the
outcome of the `disableButtons` status edit, which the source ignores. -/
def resultExitCode (result : ApprovalResult) (edit : EditOutcome)
    (run : RunOutcome) : Nat :=
  match result, edit with
  | ApprovalApproved, _ => approvedExitCode run
  | ApprovalDenied, _ => 1
  | ApprovalTimeout, _ => 1
  | _, _ => 1

/-- The `select` plus result handling in `main` (lines 286-302 and 316-366):
an interrupt exits 130 directly from the select after a best-effort edit;
`ctx.Done()` sets `result = ApprovalTimeout`; otherwise the received result
is switched on. -/
def mainExitCode (e : WaitEvent) (edit : EditOutcome) (run : RunOutcome) : Nat :=
  match e with
  | WaitEvent.resultArrived r => resultExitCode r edit run
  | WaitEvent.timerFired => resultExitCode ApprovalTimeout edit run
  | WaitEvent.interrupted => 130

/-! ### Straight-line structure of `main` before the wait
(main.go lines 85-274) -/

/-- Abstract steps of the setup phase of `main`, in source order. -/
inductive Step where
  | readStdin
  | loadConfigStep
  | openConnection
  | sendMessage
deriving DecidableEq, Repr

/-- The setup phase of `main` (lines 108-274): stdin is read fully
(`io.ReadAll`) only when `--show-stdin` is set and before anything else;
then the config is loaded (error → exit 1 before any network step); then
the Discord connection is opened (`dg.Open`, error → exit 1); then the
request message is sent.  Returns the executed steps and the early exit
code, if the process exited during setup. -/
def mainSetup (showStdin : Bool) (read : ReadOutcome) (openOk : Bool) :
    List Step × Option Nat :=
  let pre := (if showStdin then [Step.readStdin] else []) ++ [Step.loadConfigStep]
  match loadConfig read with
  | Except.error _ => (pre, some 1)
  | Except.ok _ =>
    if openOk then (pre ++ [Step.openConnection, Step.sendMessage], none)
    else (pre ++ [Step.openConnection], some 1)

/-! ### Stdin capture display and truncation (main.go lines 218-229)

Go strings are byte slices; message text is modelled as `List Char` (the
source only measures and slices with `len` and `[:n]`).  The wrapper
`"\n**Stdin:**\n\x60\x60\x60\n%s\n\x60\x60\x60"` contributes a fixed prefix
and suffix around the (possibly truncated) stdin display. -/

/-- The fixed text placed before the stdin display by the
`"\n**Stdin:**..."` format string. -/
def stdinWrapBefore : List Char :=
  String.toList ("\n**Stdin:**\n```\n")

/-- The fixed text placed after the stdin display. -/
def stdinWrapAfter : List Char :=
  String.toList ("\n```")

/-- `len("\n**Stdin:**\n\x60\x60\x60\n\n\x60\x60\x60")` from main.go
line 221: the length of the empty-stdin section wrapper. -/
def stdinWrapLen : Int :=
  (String.toList ("\n**Stdin:**\n```\n\n```")).length

/-- `maxStdinDisplay` computation (main.go lines 221-224): the remaining
budget under the 2000-character Discord limit, after the rest of the message
and a 50-byte reserve, clamped at zero. -/
def maxStdinDisplay (requestContent : List Char) : Int :=
  let m : Int := 2000 - (requestContent.length : Int) - stdinWrapLen - 50
  if m < 0 then 0 else m

/-- The truncation marker `fmt.Sprintf("\n... (%d bytes truncated)", n)`
(main.go line 226). -/
def truncationMarker (n : Nat) : List Char :=
  String.toList ("\n... (") ++ (Nat.repr n).toList ++ String.toList (" bytes truncated)")

/-- The stdin display after the truncation check (main.go lines 225-227):
unchanged when it fits the budget, otherwise cut to the budget with the
marker appended. -/
def stdinDisplay (requestContent stdinData : List Char) : List Char :=
  let m := (maxStdinDisplay requestContent).toNat
  if stdinData.length > m then
    stdinData.take m ++ truncationMarker (stdinData.length - m)
  else stdinData

/-- The final posted message content (main.go lines 218-229): the base
request content, plus — when `--show-stdin` is set — the wrapped stdin
display. -/
def finalContent (requestContent stdinData : List Char) (showStdin : Bool) :
    List Char :=
  if showStdin then
    requestContent ++ stdinWrapBefore ++ stdinDisplay requestContent stdinData
      ++ stdinWrapAfter
  else requestContent

/-! ### Helper lemmas -/

/-- Once the slot is full, the handler never changes it. -/
lemma handleInteraction_fst_some (cfg : Config) (reqID : String)
    (d : ApprovalResult) (i : Interaction) :
    (handleInteraction cfg reqID (some d) i).1 = some d := by
  unfold handleInteraction trySend
  repeat' split
  all_goals simp_all

/-- Once the slot is full, no later sequence of events changes it. -/
lemma processEvents_some (cfg : Config) (reqID : String) (d : ApprovalResult)
    (l : List Interaction) :
    processEvents cfg reqID (some d) l = some d := by
  induction l with
  | nil => rfl
  | cons i rest ih =>
    rw [processEvents, handleInteraction_fst_some]
    exact ih

/-- On a qualifying approve event the handler acknowledges with a deferred
update and performs the non-blocking send of `ApprovalApproved`. -/
lemma handleInteraction_qualifying (cfg : Config) (reqID : String)
    (i : Interaction) (h : qualifyingApprove cfg reqID i)
    (slot : Option ApprovalResult) :
    handleInteraction cfg reqID slot i
      = (trySend slot ApprovalApproved, [Response.deferredUpdate]) := by
  obtain ⟨h1, h2, h3, h4⟩ := h
  unfold handleInteraction
  simp [h1, h2, h3, h4]

/-! ### Claims -/

/-- C1: the decision arbiter is a single-slot, first-writer-wins result:
with two qualifying approve events delivered first, followed by any later
events (e.g. an authorized deny after resolution), the produced decision is
`ApprovalApproved`; moreover a full slot is never changed by any later
event — later candidates are dropped without error. -/
theorem c1_first_writer_wins (cfg : Config) (reqID : String)
    (e1 e2 : Interaction) (rest : List Interaction)
    (h1 : qualifyingApprove cfg reqID e1) (h2 : qualifyingApprove cfg reqID e2) :
    processEvents cfg reqID none (e1 :: e2 :: rest) = some ApprovalApproved ∧
    ∀ (d : ApprovalResult) (i : Interaction),
      (handleInteraction cfg reqID (some d) i).1 = some d := by
  refine ⟨?_, fun d i => handleInteraction_fst_some cfg reqID d i⟩
  rw [processEvents, handleInteraction_qualifying cfg reqID e1 h1]
  rw [processEvents, handleInteraction_qualifying cfg reqID e2 h2]
  exact processEvents_some cfg reqID ApprovalApproved rest

/-- Witness for C1 at concrete inputs: approver set `{"42"}`, two approve
clicks by `"42"` on message `"m1"`, then an authorized deny click. -/
theorem c1_first_writer_wins_witness :
    processEvents ⟨"t", ["42"], 10⟩ "m1" none
        [⟨true, some "m1", some "42", none, "psd_approve"⟩,
         ⟨true, some "m1", some "42", none, "psd_approve"⟩,
         ⟨true, some "m1", some "42", none, "psd_deny"⟩]
      = some ApprovalApproved := by
  exact (c1_first_writer_wins ⟨"t", ["42"], 10⟩ "m1"
    ⟨true, some "m1", some "42", none, "psd_approve"⟩
    ⟨true, some "m1", some "42", none, "psd_approve"⟩
    [⟨true, some "m1", some "42", none, "psd_deny"⟩]
    (by decide) (by decide)).1

/-- C2: an event whose target message identifier differs from the live
request identifier (including a missing message) is rejected regardless of
actor and action: the slot is unchanged and no response is sent. -/
theorem c2_wrong_message_rejected (cfg : Config) (reqID : String)
    (slot : Option ApprovalResult) (i : Interaction)
    (h : i.messageID ≠ some reqID) :
    handleInteraction cfg reqID slot i = (slot, []) := by
  unfold handleInteraction
  split <;> simp [h]

/-- Witness for C2: authorized actor, approve action, but mismatched
message identifier — still rejected with no effect. -/
theorem c2_wrong_message_rejected_witness :
    handleInteraction ⟨"t", ["42"], 10⟩ "m1" none
        ⟨true, some "OTHER", some "42", none, "psd_approve"⟩
      = (none, []) := by
  exact c2_wrong_message_rejected ⟨"t", ["42"], 10⟩ "m1" none
    ⟨true, some "OTHER", some "42", none, "psd_approve"⟩ (by decide)

/-- C3: an actor not in the approver identity set is rejected — the slot is
unchanged (a pending decision stays pending) — and membership is exact
string equality: in `{"111","222","333"}`, `"222"` is authorized and
`"999"` is not. -/
theorem c3_unauthorized_rejected (cfg : Config) (reqID : String)
    (slot : Option ApprovalResult) (i : Interaction)
    (h : isApprover (actorID i) cfg.approverIDs = false) :
    (handleInteraction cfg reqID slot i).1 = slot ∧
    isApprover ("222") ["111", "222", "333"] = true ∧
    isApprover ("999") ["111", "222", "333"] = false := by
  refine ⟨?_, by decide, by decide⟩
  unfold handleInteraction
  repeat' split <;> simp_all

/-- Witness for C3: unauthorized actor `"999"` clicking approve on the
correct message leaves the pending slot pending. -/
theorem c3_unauthorized_rejected_witness :
    (handleInteraction ⟨"t", ["111", "222", "333"], 10⟩ "m1" none
        ⟨true, some "m1", some "999", none, "psd_approve"⟩).1 = none := by
  exact (c3_unauthorized_rejected ⟨"t", ["111", "222", "333"], 10⟩ "m1" none
    ⟨true, some "m1", some "999", none, "psd_approve"⟩ (by decide)).1

/-- C10: when an interaction carries neither a guild-member identity nor a
user identity, the handler uses the empty string as the actor identity;
such an event on the live message is rejected when `""` is not in the
approver set, and is treated as authorized when `""` is a member. -/
theorem c10_empty_actor (cfg : Config) (reqID : String) (i : Interaction)
    (hm : i.memberUserID = none) (hu : i.userID = none)
    (hmc : i.isMessageComponent = true) (hmsg : i.messageID = some reqID) :
    actorID i = "" ∧
    (isApprover ("") cfg.approverIDs = false →
      ∀ slot, handleInteraction cfg reqID slot i
        = (slot, [Response.ephemeralNotApprover])) ∧
    (isApprover ("") cfg.approverIDs = true → i.customID = buttonApproveID →
      handleInteraction cfg reqID none i
        = (some ApprovalApproved, [Response.deferredUpdate])) := by
  have ha : actorID i = "" := by
    unfold actorID
    rw [hm, hu]
  refine ⟨ha, fun hno slot => ?_, fun hyes happ => ?_⟩
  · unfold handleInteraction
    simp [hmc, hmsg, ha, hno]
  · unfold handleInteraction
    simp [hmc, hmsg, ha, hyes, happ, trySend]

/-- Witness for C10: approver set containing the empty string; a click with
neither member nor user identity is authorized and resolves the slot. -/
theorem c10_empty_actor_witness :
    actorID ⟨true, some "m1", none, none, "psd_approve"⟩ = "" ∧
    handleInteraction ⟨"t", [""], 10⟩ "m1" none
        ⟨true, some "m1", none, none, "psd_approve"⟩
      = (some ApprovalApproved, [Response.deferredUpdate]) := by
  have h := c10_empty_actor ⟨"t", [""], 10⟩ "m1"
    ⟨true, some "m1", none, none, "psd_approve"⟩ rfl rfl rfl rfl
  exact ⟨h.1, h.2.2 (by decide) rfl⟩

/-- C4: timeout precedence is explicit override > configured value >
hardcoded 300: a positive flag wins regardless of config; with the flag
unset (0), a positive configured value is used and a non-positive one falls
back to 300; concretely (config 60, flag 0) → 60, (config 0, flag 0) → 300,
and (any config, flag 45) → 45. -/
theorem c4_timeout_precedence (rc : RawConfig) (cfg : Config) (f : Int)
    (hok : loadConfig (some (some rc)) = Except.ok cfg) :
    (0 < f → effectiveTimeout cfg f = f) ∧
    (f = 0 → 0 < rc.timeoutSeconds → effectiveTimeout cfg f = rc.timeoutSeconds) ∧
    (f = 0 → rc.timeoutSeconds ≤ 0 → effectiveTimeout cfg f = 300) ∧
    Except.map (fun c => effectiveTimeout c 0)
        (loadConfig (some (some ⟨"t", ["1"], 60⟩))) = Except.ok 60 ∧
    Except.map (fun c => effectiveTimeout c 0)
        (loadConfig (some (some ⟨"t", ["1"], 0⟩))) = Except.ok 300 ∧
    Except.map (fun c => effectiveTimeout c 45)
        (loadConfig (some (some ⟨"t", ["1"], rc.timeoutSeconds⟩))) = Except.ok 45 := by
  have hcfg : cfg.timeoutSeconds
      = if rc.timeoutSeconds ≤ 0 then defaultTimeout else rc.timeoutSeconds := by
    simp only [loadConfig] at hok
    split at hok
    · exact absurd hok (by simp)
    · split at hok
      · exact absurd hok (by simp)
      · obtain rfl := Except.ok.inj hok
        rfl
  refine ⟨fun hf => ?_, fun hf hc => ?_, fun hf hc => ?_, ?_, ?_, ?_⟩
  · unfold effectiveTimeout
    rw [if_pos hf]
  · unfold effectiveTimeout
    rw [if_neg (by omega), hcfg, if_neg (by omega)]
  · unfold effectiveTimeout
    rw [if_neg (by omega), hcfg, if_pos hc]
    rfl
  · rfl
  · rfl
  · unfold loadConfig
    simp only [List.length_cons, List.length_nil]
    rw [if_neg (by decide), if_neg (by decide)]
    unfold effectiveTimeout
    rw [Except.map]
    rw [if_pos (by decide)]

/-- Witness for C4 at concrete values: config timeout 60 and a successful
load with flag 45. -/
theorem c4_timeout_precedence_witness :
    effectiveTimeout ⟨"t", ["1"], 60⟩ 45 = 45 := by
  exact (c4_timeout_precedence ⟨"t", ["1"], 60⟩ ⟨"t", ["1"], 60⟩ 45 rfl).1 (by decide)

/-- C5: the exit code is a function of the decision: denial exits 1, timeout
exits 1, interrupt/cancellation exits 130, and on approval the executed
command's own exit code is propagated, or 1 when the command could not be
started. -/
theorem c5_exit_codes :
    (∀ (ed : EditOutcome) (run : RunOutcome),
      mainExitCode (WaitEvent.resultArrived ApprovalDenied) ed run = 1) ∧
    (∀ (ed : EditOutcome) (run : RunOutcome),
      mainExitCode WaitEvent.timerFired ed run = 1) ∧
    (∀ (ed : EditOutcome) (run : RunOutcome),
      mainExitCode WaitEvent.interrupted ed run = 130) ∧
    (∀ (ed : EditOutcome) (code : Nat),
      mainExitCode (WaitEvent.resultArrived ApprovalApproved) ed
        (RunOutcome.completed code) = code) ∧
    (∀ (ed : EditOutcome),
      mainExitCode (WaitEvent.resultArrived ApprovalApproved) ed
        RunOutcome.startError = 1) := by
  refine ⟨fun ed run => rfl, fun ed run => rfl, fun ed run => rfl,
    fun ed code => rfl, fun ed => rfl⟩

/-- Witness for C5 at concrete inputs: an approved decision with a child
exit code 7 propagates 7. -/
theorem c5_exit_codes_witness :
    mainExitCode (WaitEvent.resultArrived ApprovalApproved) EditOutcome.editOk
      (RunOutcome.completed 7) = 7 := by
  exact c5_exit_codes.2.2.2.1 EditOutcome.editOk 7

/-- C7: status-message edits are best-effort: the exit code is the same
whether the cosmetic edit succeeds or fails, for every decision path. -/
theorem c7_edit_best_effort (e : WaitEvent) (run : RunOutcome)
    (ed1 ed2 : EditOutcome) :
    mainExitCode e ed1 run = mainExitCode e ed2 run := by
  cases e with
  | resultArrived r => cases r <;> rfl
  | timerFired => rfl
  | interrupted => rfl

/-- Witness for C7: the timeout exit code is 1 whether the status edit
succeeds or fails. -/
theorem c7_edit_best_effort_witness :
    mainExitCode WaitEvent.timerFired EditOutcome.editOk RunOutcome.startError
      = mainExitCode WaitEvent.timerFired EditOutcome.editFailed
          RunOutcome.startError := by
  exact c7_edit_best_effort WaitEvent.timerFired RunOutcome.startError
    EditOutcome.editOk EditOutcome.editFailed

/-- C8: when `--show-stdin` is set, the stdin read is the first setup step,
completed strictly before the connection is opened; without the flag, stdin
is never read. -/
theorem c8_stdin_before_connect (read : ReadOutcome) (openOk : Bool) :
    Step.readStdin ∉ (mainSetup false read openOk).1 ∧
    (mainSetup true read openOk).1.head? = some Step.readStdin ∧
    (mainSetup true read openOk).1.indexOf Step.readStdin
      < (mainSetup true read openOk).1.indexOf Step.openConnection := by
  unfold mainSetup
  cases hl : loadConfig read with
  | error e => simp
  | ok cfg => cases openOk <;> simp

/-- Witness for C8 at concrete inputs: an unreadable config file with the
flag unset/set. -/
theorem c8_stdin_before_connect_witness :
    Step.readStdin ∉ (mainSetup false none true).1 ∧
    (mainSetup true none true).1.head? = some Step.readStdin ∧
    (mainSetup true none true).1.indexOf Step.readStdin
      < (mainSetup true none true).1.indexOf Step.openConnection := by
  exact c8_stdin_before_connect none true

/-- C9: configuration loading fails when the file is missing/unreadable or
unparsable, the token is empty, or the approver set is empty; a successful
load yields a non-empty token, a non-empty approver set and a positive
timeout; and a failed load makes `main` exit 1 before any network step. -/
theorem c9_config_validation :
    (loadConfig none).isOk = false ∧
    (loadConfig (some none)).isOk = false ∧
    (∀ rc : RawConfig, rc.discordToken = "" →
      (loadConfig (some (some rc))).isOk = false) ∧
    (∀ rc : RawConfig, rc.approverIDs = [] →
      (loadConfig (some (some rc))).isOk = false) ∧
    (∀ (read : ReadOutcome) (cfg : Config), loadConfig read = Except.ok cfg →
      cfg.discordToken ≠ "" ∧ cfg.approverIDs ≠ [] ∧ 0 < cfg.timeoutSeconds) ∧
    (∀ (showStdin : Bool) (read : ReadOutcome) (openOk : Bool),
      (loadConfig read).isOk = false →
      (mainSetup showStdin read openOk).2 = some 1 ∧
      Step.openConnection ∉ (mainSetup showStdin read openOk).1) := by
  refine ⟨rfl, rfl, fun rc h => ?_, fun rc h => ?_, fun read cfg h => ?_,
    fun showStdin read openOk h => ?_⟩
  · simp only [loadConfig]
    rw [if_pos h]
    rfl
  · by_cases htok : rc.discordToken = ""
    · simp only [loadConfig]
      rw [if_pos htok]
      rfl
    · simp only [loadConfig]
      rw [if_neg htok, if_pos (by rw [h]; rfl)]
      rfl
  · match read with
    | none => exact absurd h (by simp [loadConfig])
    | some none => exact absurd h (by simp [loadConfig])
    | some (some rc) =>
      simp only [loadConfig] at h
      split at h
      · exact absurd h (by simp)
      · split at h
        · exact absurd h (by simp)
        · obtain rfl := Except.ok.inj h
          rename_i htok hlen
          refine ⟨htok,
            fun hnil => hlen (by rw [show rc.approverIDs = [] from hnil]; rfl), ?_⟩
          simp only
          split
          · exact (by decide : (0 : Int) < 300)
          · omega
  · unfold mainSetup
    cases hl : loadConfig read with
    | error e => simp
    | ok cfg =>
      rw [hl] at h
      simp [Except.isOk, Except.toBool] at h

/-- Witness for C9 at a concrete input: an empty token is rejected. -/
theorem c9_config_validation_witness :
    (loadConfig (some (some ⟨"", ["1"], 5⟩))).isOk = false := by
  exact c9_config_validation.2.2.1 ⟨"", ["1"], 5⟩ rfl

/-! ### Length facts for the truncation computation -/

lemma stdinWrapBefore_length : stdinWrapBefore.length = 16 := by decide

lemma stdinWrapAfter_length : stdinWrapAfter.length = 4 := by decide

lemma stdinWrapLen_eq : stdinWrapLen = 20 := by decide

lemma truncationMarker_length (n : Nat) :
    (truncationMarker n).length = 23 + (Nat.repr n).length := by
  unfold truncationMarker
  rw [List.length_append, List.length_append]
  have h1 : (String.toList ("\n... (")).length = 6 := by decide
  have h2 : (String.toList (" bytes truncated)")).length = 17 := by decide
  have h3 : (Nat.repr n).toList.length = (Nat.repr n).length := rfl
  omega

lemma stdinDisplay_length_of_gt (rc sd : List Char)
    (h : sd.length > (maxStdinDisplay rc).toNat) :
    (stdinDisplay rc sd).length
      = (maxStdinDisplay rc).toNat + 23
          + (Nat.repr (sd.length - (maxStdinDisplay rc).toNat)).length := by
  unfold stdinDisplay
  rw [if_pos h, List.length_append, List.length_take, truncationMarker_length]
  omega

lemma stdinDisplay_length_of_le (rc sd : List Char)
    (h : ¬ sd.length > (maxStdinDisplay rc).toNat) :
    (stdinDisplay rc sd).length = sd.length := by
  unfold stdinDisplay
  rw [if_neg h]

lemma finalContent_true_length (rc sd : List Char) :
    (finalContent rc sd true).length
      = rc.length + 16 + (stdinDisplay rc sd).length + 4 := by
  unfold finalContent
  rw [if_pos rfl, List.length_append, List.length_append, List.length_append,
    stdinWrapBefore_length, stdinWrapAfter_length]

/-- C6 counterexample: with a 1960-character base request content and a
one-byte captured input, the posted message is 2004 characters — the code
only truncates the stdin display, so the 2000-character bound fails when
the rest of the message leaves no budget. -/
theorem c6_counterexample :
    2000 < (finalContent (List.replicate 1960 'a') ['x'] true).length := by
  have hrc : (List.replicate 1960 'a').length = 1960 := List.length_replicate _ _
  have hmax : maxStdinDisplay (List.replicate 1960 'a') = 0 := by
    show (if ((2000 : Int) - ((List.replicate 1960 'a').length : Int)
          - stdinWrapLen - 50 < 0) then (0 : Int)
        else (2000 : Int) - ((List.replicate 1960 'a').length : Int)
          - stdinWrapLen - 50) = 0
    rw [hrc, stdinWrapLen_eq]
    norm_num
  have hgt : (['x'] : List Char).length
      > (maxStdinDisplay (List.replicate 1960 'a')).toNat := by
    rw [hmax]
    norm_num
  rw [finalContent_true_length, stdinDisplay_length_of_gt _ _ hgt, hrc, hmax]
  have h1 : (Nat.repr ((['x'] : List Char).length - ((0 : Int)).toNat)).length = 1 := rfl
  rw [h1]
  norm_num

/-- C6 (amended): when the non-stdin portion of the message leaves a
nonnegative budget (base content at most 1930 characters) and the captured
input is within the machine integer range, the posted message stays within
the 2000-character limit; an over-budget input is cut to the remaining
budget with the "N bytes truncated" marker appended. -/
theorem c6_truncation_bound (rc sd : List Char)
    (hrc : rc.length + 70 ≤ 2000) (hsd : sd.length < 2 ^ 63) :
    (finalContent rc sd true).length ≤ 2000 ∧
    ((maxStdinDisplay rc).toNat < sd.length →
      stdinDisplay rc sd
        = sd.take (maxStdinDisplay rc).toNat
            ++ truncationMarker (sd.length - (maxStdinDisplay rc).toNat)) := by
  have hmax : (maxStdinDisplay rc).toNat = 2000 - rc.length - 70 := by
    show (if ((2000 : Int) - (rc.length : Int) - stdinWrapLen - 50 < 0) then (0 : Int)
        else (2000 : Int) - (rc.length : Int) - stdinWrapLen - 50).toNat
      = 2000 - rc.length - 70
    rw [stdinWrapLen_eq, if_neg (by omega)]
    omega
  refine ⟨?_, fun hgt => ?_⟩
  · by_cases hgt : sd.length > (maxStdinDisplay rc).toNat
    · rw [finalContent_true_length, stdinDisplay_length_of_gt _ _ hgt]
      have hrepr : (Nat.repr (sd.length - (maxStdinDisplay rc).toNat)).length ≤ 19 := by
        refine Nat.repr_length _ 19 (by norm_num) ?_
        calc sd.length - (maxStdinDisplay rc).toNat
            ≤ sd.length := Nat.sub_le _ _
          _ < 2 ^ 63 := hsd
          _ < 10 ^ 19 := by norm_num
      omega
    · rw [finalContent_true_length, stdinDisplay_length_of_le _ _ hgt]
      omega
  · unfold stdinDisplay
    rw [if_pos hgt]

/-- Witness for the amended C6 at concrete inputs: a 3-character base
content with a 100-byte captured input fits the limit. -/
theorem c6_truncation_bound_witness :
    (finalContent (String.toList ("abc")) (List.replicate 100 'x') true).length
      ≤ 2000 := by
  exact (c6_truncation_bound (String.toList ("abc")) (List.replicate 100 'x')
    (by decide) (by decide)).1

end PromptSudo
